import Mathlib

set_option maxRecDepth 100000

/-!
Verification development for the vehicle-registration data pipeline
(`process_data.py`): a shallow embedding of `load_data`, `clean_data`,
`calculate_growth_metrics`, `save_to_sqlite` and `process_data`, followed by
theorems settling the specification's claims about them.

Modelling conventions:
* a DataFrame is a `Table`: a column-name list plus rows of `Cell`s; a cell is
  missing (`Cell.na`, pandas NaN/NaT), a string, a parsed calendar date, or an
  exact rational number (idealising float arithmetic by exact arithmetic);
* `pd.to_datetime(..., errors='coerce')` is modelled on the ISO
  `YYYY-MM-DD` grammar (the format produced by the repository's own scraper):
  a string outside that grammar coerces to missing;
* pandas `pct_change` is `cur / prev - 1`; division by a zero previous value
  follows IEEE float semantics: `cur/0` is `+inf` for `cur > 0`, `-inf` for
  `cur < 0`, and NaN for `cur = 0`, modelled by the `PctVal` type;
* groupby keys with missing components are dropped (pandas `dropna=True`) and
  missing values are skipped by `sum` (pandas `skipna=True`).
-/

/-- A cell of a DataFrame: missing (NaN/NaT), a raw string, a parsed calendar
date `(year, month, day)`, or a numeric value (exact rational). -/
inductive Cell where
  | na
  | str (s : String)
  | date (d : Nat × Nat × Nat)
  | num (q : ℚ)
deriving DecidableEq

/-- A DataFrame: column names plus rows of cells (one cell per column). -/
structure Table where
  cols : List String
  rows : List (List Cell)
deriving DecidableEq

/-- Strip leading and trailing whitespace from a character list
(Python `str.strip()`). -/
def stripWS (l : List Char) : List Char :=
  ((l.dropWhile Char.isWhitespace).reverse.dropWhile Char.isWhitespace).reverse

/-- Lower-case a string (Python `str.lower()`). -/
def lowerStr (s : String) : String := ⟨s.data.map Char.toLower⟩

/-- Upper-case a string (Python `str.upper()`). -/
def upperStr (s : String) : String := ⟨s.data.map Char.toUpper⟩

/-- Title-case characters (Python `str.title()`): a letter is upper-cased when
the preceding character is not a letter, lower-cased otherwise. The boolean
argument records whether the previous character was a letter. -/
def titleChars : Bool → List Char → List Char
  | _, [] => []
  | prevAlpha, c :: cs =>
    (if c.isAlpha then (if prevAlpha then c.toLower else c.toUpper) else c)
      :: titleChars c.isAlpha cs

/-- Title-case a string (Python `str.title()`). -/
def titleStr (s : String) : String := ⟨titleChars false s.data⟩

/-- Column-name standardisation of `clean_data`:
`col.strip().lower().replace(' ', '_')`. -/
def normalizeColName (s : String) : String :=
  ⟨(stripWS s.data).map (fun c =>
    let c2 := c.toLower
    if c2 = ' ' then '_' else c2)⟩

/-- Substring test (Python `pat in s`). -/
def strContains (s pat : String) : Bool :=
  (List.range (s.data.length + 1)).any (fun i => pat.data.isPrefixOf (s.data.drop i))

/-- A column is date-like when its (standardised) name contains `date`
(`'date' in col` in `clean_data`). -/
def isDateCol (col : String) : Bool := strContains col "date"

/-- The numeric-vocabulary words of `clean_data`. -/
def numericWords : List String := ["registration", "value", "number", "count", "sales"]

/-- A column is numeric when its name contains one of the numeric-vocabulary
words (`any(word in col.lower() for word in [...])` in `clean_data`). -/
def isNumCol (col : String) : Bool := numericWords.any (fun w => strContains col w)

/-- Numeric value of a digit list, most significant first. -/
def digitsToNat (l : List Char) : Nat :=
  l.foldl (fun a c => a * 10 + (c.toNat - 48)) 0

/-- Split a character list on a separator character. -/
def splitOnChar (sep : Char) : List Char → List (List Char)
  | [] => [[]]
  | c :: cs =>
    let r := splitOnChar sep cs
    if c = sep then [] :: r
    else
      match r with
      | [] => [[c]]
      | h :: t => (c :: h) :: t

/-- Gregorian leap-year test. -/
def isLeap (y : Nat) : Bool := (y % 4 == 0 && y % 100 != 0) || y % 400 == 0

/-- Number of days in a month. -/
def daysInMonth (y m : Nat) : Nat :=
  if m == 2 then (if isLeap y then 29 else 28)
  else if m == 4 || m == 6 || m == 9 || m == 11 then 30
  else 31

/-- Calendar-date parsing for `pd.to_datetime(..., errors='coerce')`,
modelled on the ISO `YYYY-MM-DD` grammar: three dash-separated digit groups
forming a valid calendar date; anything else is unparseable (`none`). -/
def parseDate (s : String) : Option (Nat × Nat × Nat) :=
  match splitOnChar '-' s.data with
  | [ys, ms, ds] =>
    if !ys.isEmpty && !ms.isEmpty && !ds.isEmpty
        && (ys ++ ms ++ ds).all Char.isDigit then
      let y := digitsToNat ys
      let m := digitsToNat ms
      let d := digitsToNat ds
      if 1 ≤ m && m ≤ 12 && 1 ≤ d && d ≤ daysInMonth y m then some (y, m, d)
      else none
    else none
  | _ => none

/-- The character filter of `clean_data`'s numeric step: the regex
`[^\d.]` removal keeps exactly digits and decimal points. -/
def stripNonNum (s : String) : String :=
  ⟨s.data.filter (fun c => c.isDigit || c = '.')⟩

/-- Numeric parsing for `pd.to_numeric(..., errors='coerce')` restricted to
its post-strip inputs (digits and dots only): a nonempty digit string, or a
string with a single dot and at least one digit, parses to its decimal value;
anything else is unparseable. -/
def parseNum (s : String) : Option ℚ :=
  let l := s.data
  if !l.all (fun c => c.isDigit || c = '.') then none
  else
    match (l.filter (fun c => c = '.')).length with
    | 0 => if l.isEmpty then none else some (digitsToNat l)
    | 1 =>
      let intPart := l.takeWhile (fun c => c ≠ '.')
      let fracPart := (l.dropWhile (fun c => c ≠ '.')).drop 1
      if intPart.isEmpty && fracPart.isEmpty then none
      else some ((digitsToNat (intPart ++ fracPart) : ℚ) / (10 : ℚ) ^ fracPart.length)
    | _ => none

/-- Date coercion of a cell (`pd.to_datetime(col, errors='coerce')`):
strings parse or become missing; dates stay; other cells coerce to missing. -/
def dateCoerce : Cell → Cell
  | .na => .na
  | .str s =>
    match parseDate s with
    | some d => .date d
    | none => .na
  | .date d => .date d
  | .num _ => .na

/-- Numeric coercion of a cell (`astype(str)`, strip `[^\d.]`,
`pd.to_numeric(errors='coerce')`): a missing cell renders as the string
`nan`, which strips to the empty string and coerces back to missing; a
numeric cell round-trips through its decimal rendering unchanged; a string
is stripped and parsed; a date cell does not survive the numeric round-trip
in this model. -/
def numericCoerce : Cell → Cell
  | .na => .na
  | .str s =>
    match parseNum (stripNonNum s) with
    | some q => .num q
    | none => .na
  | .num q => .num q
  | .date _ => .na

/-- The category alias table of `clean_data`. -/
def categoryAliasMap : List (String × String) :=
  [("TWO WHEELER", "2W"), ("THREE WHEELER", "3W"), ("FOUR WHEELER", "4W"),
   ("2 WHEELER", "2W"), ("3 WHEELER", "3W"), ("4 WHEELER", "4W")]

/-- The manufacturer alias table of `clean_data`. -/
def manufacturerAliasMap : List (String × String) :=
  [("Hero", "Hero MotoCorp"), ("Bajaj", "Bajaj Auto"), ("Tata", "Tata Motors"),
   ("Mahindra", "Mahindra & Mahindra"),
   ("Mahindra And Mahindra", "Mahindra & Mahindra")]

/-- `Series.replace` with a dictionary: cells exactly equal to an alias key
are replaced; everything else passes through unchanged. -/
def applyAlias (m : List (String × String)) : Cell → Cell
  | .str s => .str ((m.lookup s).getD s)
  | c => c

/-- Category standardisation of `clean_data`: `.str.upper()` (non-strings,
including missing, become missing) followed by the alias replacement. -/
def categoryClean (c : Cell) : Cell :=
  applyAlias categoryAliasMap
    (match c with
     | .str s => .str (upperStr s)
     | _ => .na)

/-- Manufacturer standardisation of `clean_data`: `.str.title()` followed by
the alias replacement. -/
def manufacturerClean (c : Cell) : Cell :=
  applyAlias manufacturerAliasMap
    (match c with
     | .str s => .str (titleStr s)
     | _ => .na)

/-- The per-cell transformation of `clean_data` for a (standardised) column
name, in source order: date coercion for date-like columns, then numeric
coercion for numeric-vocabulary columns, then the category and manufacturer
standardisations on their columns. -/
def cleanCell (col : String) (c : Cell) : Cell :=
  let c1 := if isDateCol col then dateCoerce c else c
  let c2 := if isNumCol col then numericCoerce c1 else c1
  let c3 := if col == "category" then categoryClean c2 else c2
  if col == "manufacturer" then manufacturerClean c3 else c3

/-- Apply `cleanCell` cell-wise across a row, pairing cells with the
standardised column names. -/
def cleanRow (cols : List String) (r : List Cell) : List Cell :=
  (cols.zip r).map (fun p => cleanCell p.1 p.2)

/-- `clean_data`: drop rows that are missing in every field
(`dropna(how='all')`), standardise column names, then coerce date columns,
numeric columns, and the category/manufacturer vocabularies. -/
def clean_data (t : Table) : Table :=
  let kept := t.rows.filter (fun r => !(r.all (fun c => c == Cell.na)))
  let cols := t.cols.map normalizeColName
  { cols := cols, rows := kept.map (cleanRow cols) }

/-- The projection of a DataFrame row used by `calculate_growth_metrics`:
its date cell, its group cell (a groupby key is present only when it is a
string label), and its value cell (a numeric registrations count). -/
structure NRow where
  date : Option (Nat × Nat × Nat)
  group : Option String
  value : Option ℚ
deriving DecidableEq

/-- Read the cell of a named column from a row (`df[col]` for one row). -/
def getCol (cols : List String) (r : List Cell) (c : String) : Cell :=
  ((cols.zip r).lookup c).getD Cell.na

/-- Project a DataFrame row onto the three columns `calculate_growth_metrics`
uses: the date column, the value column and the group column. -/
def toNRow (cols : List String) (dc vc gc : String) (r : List Cell) : NRow :=
  { date :=
      match getCol cols r dc with
      | .date d => some d
      | _ => none
    group :=
      match getCol cols r gc with
      | .str s => some s
      | _ => none
    value :=
      match getCol cols r vc with
      | .num q => some q
      | _ => none }

/-- The value of a pandas `pct_change` entry after multiplying by `100`:
missing (NaN), positive or negative infinity, or a finite value. -/
inductive PctVal where
  | na
  | inf
  | ninf
  | val (q : ℚ)
deriving DecidableEq

/-- Pandas `pct_change`: `cur / prev - 1`. A missing previous entry (the
first row of a group) gives NaN; a zero previous value follows IEEE float
division: `+inf` for a positive current value, `-inf` for a negative one,
NaN when the current value is also zero. -/
def pctChange (prev : Option ℚ) (cur : ℚ) : PctVal :=
  match prev with
  | none => .na
  | some p =>
    if p = 0 then
      (if cur > 0 then .inf else if cur < 0 then .ninf else .na)
    else .val (cur / p - 1)

/-- Multiplication of a `pct_change` entry by `100`: infinities and NaN are
fixed points. -/
def pct100 : PctVal → PctVal
  | .val q => .val (q * 100)
  | v => v

/-- One row of a growth table produced by `calculate_growth_metrics`: the
period/group key, the summed registrations, and the growth percentage. -/
structure GRow (K : Type) where
  period_key : K
  total_registrations : ℚ
  growth_pct : PctVal
deriving DecidableEq

/-- Build the rows of a growth table from the sorted key list: each key's
growth is the `pct_change` against the total of the last earlier key of the
same `pct_change` group (the keys already emitted, held in the accumulator),
multiplied by `100`. -/
def growthRows {K : Type} (sameG : K → K → Bool) (total : K → ℚ) :
    List K → List K → List (GRow K)
  | _, [] => []
  | acc, k :: ks =>
    { period_key := k, total_registrations := total k,
      growth_pct := pct100 (pctChange
        (((acc.filter (fun j => sameG j k)).getLast?).map total) (total k)) }
      :: growthRows sameG total (acc ++ [k]) ks

/-- Boolean lexicographic order on character lists by code point (Python
string comparison). -/
def charsLtB : List Char → List Char → Bool
  | [], [] => false
  | [], _ :: _ => true
  | _ :: _, [] => false
  | c :: cs, d :: ds => c.val < d.val || (c.val == d.val && charsLtB cs ds)

/-- Boolean order on strings: equality or code-point lexicographic order. -/
def strLeB (a b : String) : Bool := a == b || charsLtB a.data b.data

/-- Lexicographic order on `Nat` pairs (year/month or year/quarter keys). -/
def ymLeB (a b : Nat × Nat) : Bool :=
  a.1.blt b.1 || (a.1 == b.1 && (a.2.blt b.2 || a.2 == b.2))

/-- Groupby key order for monthly and quarterly keys: period first, then
group label (pandas sorts group keys ascending). -/
def mkeyLeB (a b : (Nat × Nat) × String) : Bool :=
  (ymLeB a.1 b.1 && !(a.1 == b.1)) || (a.1 == b.1 && strLeB a.2 b.2)

/-- Groupby key order for yearly keys: year first, then group label. -/
def ykeyLeB (a b : Nat × String) : Bool :=
  a.1.blt b.1 || (a.1 == b.1 && strLeB a.2 b.2)

/-- Insert into a list sorted by a boolean order. -/
def insertLe {K : Type} (le : K → K → Bool) (x : K) : List K → List K
  | [] => [x]
  | y :: ys => if le x y then x :: y :: ys else y :: insertLe le x ys

/-- Insertion sort by a boolean order. -/
def sortLe {K : Type} (le : K → K → Bool) (l : List K) : List K :=
  l.foldr (insertLe le) []

/-- Distinct keys in order of first appearance. -/
def dedupKeys {K : Type} [BEq K] (l : List K) : List K :=
  l.foldl (fun acc k => if acc.contains k then acc else acc ++ [k]) []

/-- The monthly groupby key of a row: its `(year, month)` period and group
label, present only when both the date and the group label are present
(pandas drops rows with missing groupby keys). -/
def monthlyKey (r : NRow) : Option ((Nat × Nat) × String) :=
  match r.date, r.group with
  | some d, some g => some ((d.1, d.2.1), g)
  | _, _ => none

/-- The yearly groupby key of a row. -/
def yearlyKey (r : NRow) : Option (Nat × String) :=
  match r.date, r.group with
  | some d, some g => some (d.1, g)
  | _, _ => none

/-- Quarter of a month (`dt.quarter`). -/
def quarterOf (m : Nat) : Nat := (m - 1) / 3 + 1

/-- The quarterly groupby key of a row: its `(year, quarter)` period and
group label. -/
def quarterlyKey (r : NRow) : Option ((Nat × Nat) × String) :=
  match r.date, r.group with
  | some d, some g => some ((d.1, quarterOf d.2.1), g)
  | _, _ => none

/-- The total of one `(period, group)` cell: the sum of the present values of
the rows with that key (pandas groupby `sum` skips missing values). -/
def cellTotal {K : Type} [BEq K] (keyOf : NRow → Option K) (rows : List NRow)
    (k : K) : ℚ :=
  ((rows.filter (fun r => keyOf r == some k)).filterMap (fun r => r.value)).sum

/-- The sorted distinct monthly keys of a row list (pandas groupby output
order: ascending in the key tuple). -/
def monthlyKeys (rows : List NRow) : List ((Nat × Nat) × String) :=
  sortLe mkeyLeB (dedupKeys (rows.filterMap monthlyKey))

/-- The sorted distinct yearly keys of a row list. -/
def yearlyKeys (rows : List NRow) : List (Nat × String) :=
  sortLe ykeyLeB (dedupKeys (rows.filterMap yearlyKey))

/-- The sorted distinct quarterly keys of a row list. -/
def quarterlyKeys (rows : List NRow) : List ((Nat × Nat) × String) :=
  sortLe mkeyLeB (dedupKeys (rows.filterMap quarterlyKey))

/-- The monthly growth table: totals per `(year-month, group)` cell, growth
computed by `pct_change` grouped by the group label alone (line 111 of
`process_data.py`). -/
def monthlyTable (rows : List NRow) : List (GRow ((Nat × Nat) × String)) :=
  growthRows (fun a b => a.2 == b.2) (cellTotal monthlyKey rows) []
    (monthlyKeys rows)

/-- The yearly growth table: totals per `(year, group)` cell, growth computed
by `pct_change` grouped by the group label alone (line 117). -/
def yearlyTable (rows : List NRow) : List (GRow (Nat × String)) :=
  growthRows (fun a b => a.2 == b.2) (cellTotal yearlyKey rows) []
    (yearlyKeys rows)

/-- The quarterly growth table: totals per `(year, quarter, group)` cell,
growth computed by `pct_change` grouped by the group label AND the year
(line 123: `quarterly.groupby([group_col, 'year'])`). -/
def quarterlyTable (rows : List NRow) : List (GRow ((Nat × Nat) × String)) :=
  growthRows (fun a b => a.2 == b.2 && a.1.1 == b.1.1)
    (cellTotal quarterlyKey rows) [] (quarterlyKeys rows)

/-- The projection of a DataFrame onto the date, value and group columns
`calculate_growth_metrics` reads. -/
def metricRows (t : Table) (dc vc gc : String) : List NRow :=
  t.rows.map (toNRow t.cols dc vc gc)

/-- `calculate_growth_metrics`: project the DataFrame onto the date, value
and group columns, then return the monthly, yearly and quarterly growth
tables. -/
def calculate_growth_metrics (t : Table) (dc vc gc : String) :
    List (GRow ((Nat × Nat) × String)) × List (GRow (Nat × String))
      × List (GRow ((Nat × Nat) × String)) :=
  (monthlyTable (metricRows t dc vc gc), yearlyTable (metricRows t dc vc gc),
   quarterlyTable (metricRows t dc vc gc))

/-- One `.csv` file in the data directory, as seen by `load_data`: either it
reads into a table or `pd.read_csv` raises (corrupt/unreadable file). -/
inductive SourceFile where
  | ok (t : Table)
  | corrupt (msg : String)
deriving DecidableEq

/-- The successfully read table of a source file, if any. -/
def readOk : SourceFile → Option Table
  | .ok t => some t
  | .corrupt _ => none

/-- Whether `pd.read_csv` fails on the file. -/
def isCorrupt : SourceFile → Bool
  | .ok _ => false
  | .corrupt _ => true

/-- Reindex a row from its own columns to a combined column list: cells of
columns the source table lacks are missing (`pd.concat` NaN-fills). -/
def reindexRow (oldCols newCols : List String) (r : List Cell) : List Cell :=
  newCols.map (fun c => ((oldCols.zip r).lookup c).getD Cell.na)

/-- `pd.concat(dfs, ignore_index=True)`: the combined columns are the union
in order of first appearance; every row is reindexed to them. -/
def concatTables (ts : List Table) : Table :=
  let cols := ts.foldl (fun acc t =>
    acc ++ t.cols.filter (fun c => !(acc.contains c))) []
  { cols := cols,
    rows := ts.foldl (fun acc t => acc ++ t.rows.map (reindexRow t.cols cols)) [] }

/-- `load_data`: with no `.csv` files present, report no data (`None`);
otherwise read each file, skipping the ones `pd.read_csv` fails on; if none
read successfully, return `None`, else the concatenation of the read
tables. -/
def load_data (files : List SourceFile) : Option Table :=
  if files.isEmpty then none
  else
    let dfs := files.filterMap readOk
    if dfs.isEmpty then none
    else some (concatTables dfs)

/-- The relations `save_to_sqlite` writes: the full cleaned table, and the
category and manufacturer growth-table triples, each present only when the
corresponding column exists. -/
structure SaveResult where
  vehicle_registrations : Table
  category_growth : Option (List (GRow ((Nat × Nat) × String))
    × List (GRow (Nat × String)) × List (GRow ((Nat × Nat) × String)))
  manufacturer_growth : Option (List (GRow ((Nat × Nat) × String))
    × List (GRow (Nat × String)) × List (GRow ((Nat × Nat) × String)))

/-- `save_to_sqlite`: always write `vehicle_registrations`; write the three
category (resp. manufacturer) growth relations only when the `category`
(resp. `manufacturer`) column is present. -/
def save_to_sqlite (df : Table) : SaveResult :=
  { vehicle_registrations := df
    category_growth :=
      if df.cols.contains "category" then
        some (calculate_growth_metrics df "date" "registrations" "category")
      else none
    manufacturer_growth :=
      if df.cols.contains "manufacturer" then
        some (calculate_growth_metrics df "date" "registrations" "manufacturer")
      else none }

/-- The outcome of `process_data`: `noData` models the early `return None`
when nothing loads; `ok` models the final seven-value return; `nameError`
models the uncaught `UnboundLocalError` raised by the final
`return df_clean, monthly_cat, ..., quarterly_man` when the `category` or
`manufacturer` column is absent, so that the guarded growth blocks never
assigned those names. -/
inductive ProcResult where
  | noData
  | ok (df_clean : Table)
      (cat : List (GRow ((Nat × Nat) × String)) × List (GRow (Nat × String))
        × List (GRow ((Nat × Nat) × String)))
      (man : List (GRow ((Nat × Nat) × String)) × List (GRow (Nat × String))
        × List (GRow ((Nat × Nat) × String)))
  | nameError

/-- `process_data` after loading: clean the data, persist it (the
`save_to_sqlite` relations are returned as the already-performed side
effect), then reach the unconditional `return` of all seven values; when the
cleaned table lacks the `category` or the `manufacturer` column the
corresponding local names were never assigned and the `return` raises. -/
def process_data (input : Option Table) : Option SaveResult × ProcResult :=
  match input with
  | none => (none, .noData)
  | some df =>
    let df_clean := clean_data df
    let saved := save_to_sqlite df_clean
    if df_clean.cols.contains "category" && df_clean.cols.contains "manufacturer" then
      (some saved, .ok df_clean
        (calculate_growth_metrics df_clean "date" "registrations" "category")
        (calculate_growth_metrics df_clean "date" "registrations" "manufacturer"))
    else (some saved, .nameError)

/-- The total of a `(period, group)` cell if rows with a missing
registrations value were zero-filled instead of excluded. Modelled from the
spec's words ("excluded, not treated as zero" and "excluding vs.
zero-filling would change the total") as the comparison point for the
exclusion semantics of `cellTotal`. -/
def cellTotalZeroFilled {K : Type} [BEq K] (keyOf : NRow → Option K)
    (rows : List NRow) (k : K) : ℚ :=
  ((rows.filter (fun r => keyOf r == some k)).map (fun r => r.value.getD 0)).sum

/-- Scenario table for the year-boundary quarterly claim: one group with a
Q4 2022 observation and a Q1 2023 observation. -/
def tQ4Q1 : Table :=
  { cols := ["Date", "Category", "Registrations"],
    rows := [[.str "2022-11-15", .str "2W", .str "100"],
             [.str "2023-02-15", .str "2W", .str "150"]] }

/-- Scenario table for the zero-previous-total claim: monthly totals
100 (January), 0 (February), 150 (March) for one group. -/
def tZeroPrev : Table :=
  { cols := ["Date", "Category", "Registrations"],
    rows := [[.str "2023-01-15", .str "2W", .str "100"],
             [.str "2023-02-15", .str "2W", .str "0"],
             [.str "2023-03-15", .str "2W", .str "150"]] }

/-- Scenario table with only a date and a count column (no category or
manufacturer), as in the spec's missing-column scenario. -/
def tDateCountOnly : Table :=
  { cols := ["Date", "Count"], rows := [[.str "2023-01-15", .str "100"]] }

/-- Scenario table for the growth-formula claim: monthly totals
100 (January), 150 (February), 0 (March) for one group. -/
def tGrowthSeq : Table :=
  { cols := ["Date", "Category", "Registrations"],
    rows := [[.str "2023-01-15", .str "2W", .str "100"],
             [.str "2023-02-15", .str "2W", .str "150"],
             [.str "2023-03-15", .str "2W", .str "0"]] }

/-- Scenario rows for the missing-value exclusion claim: one cell with a
present value 100 and a missing value, plus a row with a missing group. -/
def exMissingRows : List NRow :=
  [{ date := some (2023, 1, 15), group := some "2W", value := some 100 },
   { date := some (2023, 1, 20), group := some "2W", value := none },
   { date := some (2023, 1, 21), group := none, value := some 7 }]

/-- Scenario table for the category-alias claim: the spec's two-row
TWO WHEELER / 2W input. -/
def tAlias : Table :=
  { cols := ["Date", "Category", "Registrations"],
    rows := [[.str "2023-01-15", .str "TWO WHEELER", .str "100"],
             [.str "2023-01-20", .str "2W", .str "50"]] }

/-- Scenario table for the manufacturer-title-casing claim: one row already
carrying the canonical label `Hero MotoCorp` and one raw `Hero` row. -/
def tHero : Table :=
  { cols := ["Date", "Manufacturer", "Registrations"],
    rows := [[.str "2023-01-15", .str "Hero MotoCorp", .str "100"],
             [.str "2023-01-20", .str "Hero", .str "50"]] }

/-- Scenario table for the cleaning claim: an all-empty row, a row with an
unparseable date and an unparseable count, and a fully parseable row. -/
def tDirty : Table :=
  { cols := ["Date", "Category", "Count", "Note"],
    rows := [[.na, .na, .na, .na],
             [.str "not-a-date", .str "2W", .str "abc", .str "keep me"],
             [.str "2023-01-15", .str "2W", .str "1,234", .str "ok"]] }

/-- A growth table has one row per key. -/
theorem growthRows_length {K : Type} (sameG : K → K → Bool) (total : K → ℚ) :
    ∀ (ks acc : List K), (growthRows sameG total acc ks).length = ks.length := by
  intro ks
  induction ks with
  | nil => intro acc; rfl
  | cons k ks ih => intro acc; simp [growthRows, ih]

/-- Positional characterisation of a growth table: the row at position `i`
carries the key at position `i`, its cell total, and the `pct_change`
against the total of the last earlier key (accumulator first, then the keys
before position `i`) satisfying the `pct_change` grouping predicate. -/
theorem growthRows_getElem? {K : Type} (sameG : K → K → Bool) (total : K → ℚ) :
    ∀ (ks acc : List K) (i : Nat) (k : K), ks[i]? = some k →
      (growthRows sameG total acc ks)[i]? = some
        { period_key := k, total_registrations := total k,
          growth_pct := pct100 (pctChange
            ((((acc ++ ks.take i).filter (fun j => sameG j k)).getLast?).map total)
            (total k)) } := by
  intro ks
  induction ks with
  | nil => intro acc i k h; simp at h
  | cons a ks ih =>
    intro acc i k h
    match i with
    | 0 =>
      rw [List.getElem?_cons_zero, Option.some_inj] at h
      subst h
      simp [growthRows]
    | Nat.succ n =>
      rw [List.getElem?_cons_succ] at h
      have h2 := ih (acc ++ [a]) n k h
      rw [growthRows, List.getElem?_cons_succ, h2]
      simp [List.append_assoc]

/-- A missing previous entry gives a missing growth percentage. -/
theorem pct100_pctChange_none (c : ℚ) : pct100 (pctChange none c) = PctVal.na := rfl

/-- With a nonzero previous total, the growth percentage is the spec's
formula `(current - previous) / previous * 100`. -/
theorem pct100_pctChange_some {p : ℚ} (c : ℚ) (hp : p ≠ 0) :
    pct100 (pctChange (some p) c) = PctVal.val ((c - p) / p * 100) := by
  simp only [pctChange, if_neg hp, pct100, div_sub_one hp]

/-- With a zero previous total, the growth percentage follows float
division: positive infinity for a positive current total, negative infinity
for a negative one, missing when the current total is also zero. -/
theorem pct100_pctChange_zero (c : ℚ) :
    pct100 (pctChange (some 0) c) =
      (if c > 0 then PctVal.inf else if c < 0 then PctVal.ninf else PctVal.na) := by
  simp only [pctChange, if_pos rfl]
  by_cases h1 : c > 0
  · simp [h1, pct100]
  · by_cases h2 : c < 0 <;> simp [h1, h2, pct100]

/-- Summing the present values of a row list equals summing with missing
values replaced by zero. -/
theorem sum_filterMap_value (l : List NRow) :
    (l.filterMap (fun r => r.value)).sum = (l.map (fun r => r.value.getD 0)).sum := by
  induction l with
  | nil => rfl
  | cons r l ih =>
    cases hv : r.value with
    | none => simp [List.filterMap_cons, hv, ih]
    | some q => simp [List.filterMap_cons, hv, ih]

/-- Exclusion coincides with zero-filling for every cell total. -/
theorem cellTotal_eq_zeroFilled {K : Type} [BEq K] (keyOf : NRow → Option K)
    (rows : List NRow) (k : K) :
    cellTotal keyOf rows k = cellTotalZeroFilled keyOf rows k :=
  sum_filterMap_value _

/-- A row with a missing value or a missing groupby key contributes nothing
to any cell total. -/
theorem cellTotal_cons_missing {K : Type} [BEq K] (keyOf : NRow → Option K)
    (rows : List NRow) (k : K) (r : NRow)
    (h : r.value = none ∨ keyOf r = none) :
    cellTotal keyOf (r :: rows) k = cellTotal keyOf rows k := by
  rcases h with hv | hk
  · rw [cellTotal, cellTotal, List.filter_cons]
    cases hc : keyOf r == some k
    · simp
    · simp [List.filterMap_cons, hv]
  · rw [cellTotal, cellTotal, List.filter_cons, hk]
    have hb : ((none : Option K) == some k) = false := rfl
    simp [hb]

/-- A row with a missing group label has no monthly, yearly or quarterly
groupby key. -/
theorem keys_none_of_group_none (r : NRow) (h : r.group = none) :
    monthlyKey r = none ∧ yearlyKey r = none ∧ quarterlyKey r = none := by
  refine ⟨?_, ?_, ?_⟩ <;> cases hd : r.date <;>
    simp [monthlyKey, yearlyKey, quarterlyKey, h, hd]

/-- Positional characterisation of the monthly table: the `pct_change`
lookback of the `i`-th row is the last earlier key with the same group
label. -/
theorem monthlyTable_getElem? (rows : List NRow) (i : Nat)
    (k : (Nat × Nat) × String) (h : (monthlyKeys rows)[i]? = some k) :
    (monthlyTable rows)[i]? = some
      { period_key := k, total_registrations := cellTotal monthlyKey rows k,
        growth_pct := pct100 (pctChange
          (((((monthlyKeys rows).take i).filter
            (fun j => j.2 == k.2)).getLast?).map (cellTotal monthlyKey rows))
          (cellTotal monthlyKey rows k)) } := by
  simpa [monthlyTable] using
    growthRows_getElem? (fun a b => a.2 == b.2) (cellTotal monthlyKey rows)
      (monthlyKeys rows) [] i k h

/-- Positional characterisation of the yearly table. -/
theorem yearlyTable_getElem? (rows : List NRow) (i : Nat)
    (k : Nat × String) (h : (yearlyKeys rows)[i]? = some k) :
    (yearlyTable rows)[i]? = some
      { period_key := k, total_registrations := cellTotal yearlyKey rows k,
        growth_pct := pct100 (pctChange
          (((((yearlyKeys rows).take i).filter
            (fun j => j.2 == k.2)).getLast?).map (cellTotal yearlyKey rows))
          (cellTotal yearlyKey rows k)) } := by
  simpa [yearlyTable] using
    growthRows_getElem? (fun a b => a.2 == b.2) (cellTotal yearlyKey rows)
      (yearlyKeys rows) [] i k h

/-- Positional characterisation of the quarterly table: here the
`pct_change` lookback is the last earlier key with the same group label AND
the same year (line 123 groups by `[group_col, 'year']`). -/
theorem quarterlyTable_getElem? (rows : List NRow) (i : Nat)
    (k : (Nat × Nat) × String) (h : (quarterlyKeys rows)[i]? = some k) :
    (quarterlyTable rows)[i]? = some
      { period_key := k, total_registrations := cellTotal quarterlyKey rows k,
        growth_pct := pct100 (pctChange
          (((((quarterlyKeys rows).take i).filter
            (fun j => j.2 == k.2 && j.1.1 == k.1.1)).getLast?).map
              (cellTotal quarterlyKey rows))
          (cellTotal quarterlyKey rows k)) } := by
  simpa [quarterlyTable] using
    growthRows_getElem? (fun a b => a.2 == b.2 && a.1.1 == b.1.1)
      (cellTotal quarterlyKey rows) (quarterlyKeys rows) [] i k h

/-- C7: category normalization is idempotent on the canonical values 2W, 3W
and 4W, the alias TWO WHEELER maps to the same canonical value as 2W, and
the spec's two-row scenario (TWO WHEELER 100 on 2023-01-15 and 2W 50 on
2023-01-20) collapses to a single monthly 2W cell with
total_registrations 150 and absent growth_pct. -/
theorem C7_category_alias_idempotent_scenario :
    categoryClean (Cell.str "2W") = Cell.str "2W" ∧
    categoryClean (Cell.str "3W") = Cell.str "3W" ∧
    categoryClean (Cell.str "4W") = Cell.str "4W" ∧
    categoryClean (Cell.str "TWO WHEELER") = Cell.str "2W" ∧
    (calculate_growth_metrics (clean_data tAlias) "date" "registrations" "category").1 =
      [{ period_key := ((2023, 1), "2W"), total_registrations := 150,
         growth_pct := PctVal.na }] := by
  with_unfolding_all decide

/-- C10: manufacturer normalization is not idempotent on the canonical
label Hero MotoCorp: cleaning title-cases it to the distinct label
Hero Motocorp, so re-cleaning already-cleaned data changes the table, and a
table holding both an already-canonical Hero MotoCorp row and a raw Hero
row aggregates into two distinct manufacturer groups. -/
theorem C10_manufacturer_title_not_idempotent :
    manufacturerClean (Cell.str "Hero MotoCorp") = Cell.str "Hero Motocorp" ∧
    "Hero Motocorp" ≠ "Hero MotoCorp" ∧
    clean_data (clean_data tHero) ≠ clean_data tHero ∧
    (calculate_growth_metrics (clean_data tHero) "date" "registrations" "manufacturer").1 =
      [{ period_key := ((2023, 1), "Hero MotoCorp"), total_registrations := 50,
         growth_pct := PctVal.na },
       { period_key := ((2023, 1), "Hero Motocorp"), total_registrations := 100,
         growth_pct := PctVal.na }] := by
  with_unfolding_all decide

/-- C3 (code evaluated at the failing input): on a source with only a Date
and a Count column, `save_to_sqlite` does persist `vehicle_registrations`
(dates parsed, counts numeric) and produces no category or manufacturer
growth relations, but `process_data` then raises at its unconditional
seven-value `return`, because the guarded growth blocks never assigned
`monthly_cat` (or `monthly_man`): it does not complete without error. -/
theorem C3_missing_columns_crash :
    process_data (load_data [SourceFile.ok tDateCountOnly]) =
      (some { vehicle_registrations :=
                { cols := ["date", "count"],
                  rows := [[Cell.date (2023, 1, 15), Cell.num 100]] },
              category_growth := none, manufacturer_growth := none },
       ProcResult.nameError) := by
  with_unfolding_all rfl

/-- C1 counterexample: for the normalized table with group 2W observed in
Q4 2022 (total 100) and Q1 2023 (total 150), the quarterly output's growth
for Q1 2023 is absent, not the claimed 50.0 computed against the prior
year's Q4: the quarterly lookback resets at the year boundary. -/
theorem C1_cex_quarterly_year_boundary :
    (calculate_growth_metrics (clean_data tQ4Q1) "date" "registrations" "category").2.2 =
      [{ period_key := ((2022, 4), "2W"), total_registrations := 100,
         growth_pct := PctVal.na },
       { period_key := ((2023, 1), "2W"), total_registrations := 150,
         growth_pct := PctVal.na }] ∧
    PctVal.na ≠ PctVal.val 50 := by
  with_unfolding_all decide

/-- C2 counterexample: with monthly totals 100 (January), 0 (February),
150 (March) for group 2W, the monthly growth for March — whose immediately
preceding period total is zero — is positive infinity, not absent. -/
theorem C2_cex_zero_previous_gives_infinity :
    ((calculate_growth_metrics (clean_data tZeroPrev) "date" "registrations" "category").1).map
        (fun r => r.growth_pct) = [PctVal.na, PctVal.val (-100), PctVal.inf] ∧
    PctVal.inf ≠ PctVal.na := by
  with_unfolding_all decide

/-- C5 counterexample: in a cell holding a row with value 100, a row with a
missing registrations value, and alongside a row with a missing group, the
excluded total and the zero-filled total are both 100 — they do not differ,
although rows with missing registrations and missing group values exist. -/
theorem C5_cex_total_equals_zero_filled :
    cellTotal monthlyKey exMissingRows ((2023, 1), "2W") = 100 ∧
    cellTotalZeroFilled monthlyKey exMissingRows ((2023, 1), "2W") = 100 ∧
    monthlyTable exMissingRows =
      [{ period_key := ((2023, 1), "2W"), total_registrations := 100,
         growth_pct := PctVal.na }] ∧
    exMissingRows.any (fun r => r.value.isNone) = true ∧
    exMissingRows.any (fun r => r.group.isNone) = true := by
  with_unfolding_all decide

/-- C4: in the monthly and yearly outputs of `calculate_growth_metrics`, a
period with no earlier period for its group value has absent growth_pct,
and a period whose immediately preceding period (same group value) has a
nonzero total has growth_pct equal to
`(total - previous_total) / previous_total * 100`. -/
theorem C4_first_absent_then_growth_formula (t : Table) (gc : String)
    (rows : List NRow) (hrows : rows = metricRows t "date" "registrations" gc)
    (i j : Nat) (mk : (Nat × Nat) × String) (yk : Nat × String) :
    ((monthlyKeys rows)[i]? = some mk →
      ((((monthlyKeys rows).take i).filter (fun p => p.2 == mk.2)).getLast? = none →
        ((calculate_growth_metrics t "date" "registrations" gc).1)[i]? = some
          { period_key := mk,
            total_registrations := cellTotal monthlyKey rows mk,
            growth_pct := PctVal.na }) ∧
      (∀ pk, (((monthlyKeys rows).take i).filter (fun p => p.2 == mk.2)).getLast? = some pk →
        cellTotal monthlyKey rows pk ≠ 0 →
        ((calculate_growth_metrics t "date" "registrations" gc).1)[i]? = some
          { period_key := mk,
            total_registrations := cellTotal monthlyKey rows mk,
            growth_pct := PctVal.val
              ((cellTotal monthlyKey rows mk - cellTotal monthlyKey rows pk) /
                cellTotal monthlyKey rows pk * 100) })) ∧
    ((yearlyKeys rows)[j]? = some yk →
      ((((yearlyKeys rows).take j).filter (fun p => p.2 == yk.2)).getLast? = none →
        ((calculate_growth_metrics t "date" "registrations" gc).2.1)[j]? = some
          { period_key := yk,
            total_registrations := cellTotal yearlyKey rows yk,
            growth_pct := PctVal.na }) ∧
      (∀ pk, (((yearlyKeys rows).take j).filter (fun p => p.2 == yk.2)).getLast? = some pk →
        cellTotal yearlyKey rows pk ≠ 0 →
        ((calculate_growth_metrics t "date" "registrations" gc).2.1)[j]? = some
          { period_key := yk,
            total_registrations := cellTotal yearlyKey rows yk,
            growth_pct := PctVal.val
              ((cellTotal yearlyKey rows yk - cellTotal yearlyKey rows pk) /
                cellTotal yearlyKey rows pk * 100) })) := by
  subst hrows
  constructor
  · intro hk
    have hpos := monthlyTable_getElem? (metricRows t "date" "registrations" gc) i mk hk
    constructor
    · intro hprev
      rw [show (calculate_growth_metrics t "date" "registrations" gc).1 =
        monthlyTable (metricRows t "date" "registrations" gc) from rfl, hpos, hprev]
      rfl
    · intro pk hprev hnz
      rw [show (calculate_growth_metrics t "date" "registrations" gc).1 =
        monthlyTable (metricRows t "date" "registrations" gc) from rfl, hpos, hprev]
      simp only [Option.map_some']
      rw [pct100_pctChange_some _ hnz]
  · intro hk
    have hpos := yearlyTable_getElem? (metricRows t "date" "registrations" gc) j yk hk
    constructor
    · intro hprev
      rw [show (calculate_growth_metrics t "date" "registrations" gc).2.1 =
        yearlyTable (metricRows t "date" "registrations" gc) from rfl, hpos, hprev]
      rfl
    · intro pk hprev hnz
      rw [show (calculate_growth_metrics t "date" "registrations" gc).2.1 =
        yearlyTable (metricRows t "date" "registrations" gc) from rfl, hpos, hprev]
      simp only [Option.map_some']
      rw [pct100_pctChange_some _ hnz]

/-- Witness for C4 at the spec's scenario: monthly totals 100, 150, 0 give
the growth sequence absent, 50.0, -100.0. -/
theorem C4_witness :
    ((calculate_growth_metrics (clean_data tGrowthSeq) "date" "registrations" "category").1).map
        (fun r => r.growth_pct) = [PctVal.na, PctVal.val 50, PctVal.val (-100)] ∧
    ((calculate_growth_metrics (clean_data tGrowthSeq) "date" "registrations" "category").1)[1]? =
      some { period_key := ((2023, 2), "2W"), total_registrations := 150,
             growth_pct := PctVal.val 50 } := by
  have h := (C4_first_absent_then_growth_formula (clean_data tGrowthSeq) "category" _ rfl
    1 0 ((2023, 2), "2W") (2023, "2W")).1 (by with_unfolding_all decide)
  have h2 := h.2 ((2023, 1), "2W") (by with_unfolding_all decide)
    (by with_unfolding_all decide)
  refine ⟨by with_unfolding_all decide, ?_⟩
  rw [h2]
  with_unfolding_all decide

/-- C1 as amended: the quarterly lookback of `calculate_growth_metrics` is
restricted to the same group value AND the same calendar year: a quarter
with no earlier observed quarter in its own year (in particular the first
observed quarter of each year, even when the prior year's Q4 is present)
has absent growth_pct, and a quarter whose immediately preceding observed
quarter of the same year has a nonzero total gets the percentage-change
formula against that quarter. -/
theorem C1_quarterly_same_year_lookback (t : Table) (gc : String)
    (rows : List NRow) (hrows : rows = metricRows t "date" "registrations" gc)
    (i : Nat) (qk : (Nat × Nat) × String) :
    ((quarterlyKeys rows)[i]? = some qk →
      ((((quarterlyKeys rows).take i).filter
          (fun p => p.2 == qk.2 && p.1.1 == qk.1.1)).getLast? = none →
        ((calculate_growth_metrics t "date" "registrations" gc).2.2)[i]? = some
          { period_key := qk,
            total_registrations := cellTotal quarterlyKey rows qk,
            growth_pct := PctVal.na }) ∧
      (∀ pk, (((quarterlyKeys rows).take i).filter
          (fun p => p.2 == qk.2 && p.1.1 == qk.1.1)).getLast? = some pk →
        cellTotal quarterlyKey rows pk ≠ 0 →
        ((calculate_growth_metrics t "date" "registrations" gc).2.2)[i]? = some
          { period_key := qk,
            total_registrations := cellTotal quarterlyKey rows qk,
            growth_pct := PctVal.val
              ((cellTotal quarterlyKey rows qk - cellTotal quarterlyKey rows pk) /
                cellTotal quarterlyKey rows pk * 100) })) := by
  subst hrows
  intro hk
  have hpos := quarterlyTable_getElem? (metricRows t "date" "registrations" gc) i qk hk
  constructor
  · intro hprev
    rw [show (calculate_growth_metrics t "date" "registrations" gc).2.2 =
      quarterlyTable (metricRows t "date" "registrations" gc) from rfl, hpos, hprev]
    rfl
  · intro pk hprev hnz
    rw [show (calculate_growth_metrics t "date" "registrations" gc).2.2 =
      quarterlyTable (metricRows t "date" "registrations" gc) from rfl, hpos, hprev]
    simp only [Option.map_some']
    rw [pct100_pctChange_some _ hnz]

/-- Witness for the amended C1 at the year-boundary scenario: Q1 2023 is
the first observed quarter of its (group, year) block, so its growth is
absent even though Q4 2022 is present; and within 2023, Q2 against Q1 gets
the formula. -/
theorem C1_quarterly_same_year_lookback_witness :
    ((calculate_growth_metrics (clean_data tQ4Q1) "date" "registrations" "category").2.2)[1]? =
      some { period_key := ((2023, 1), "2W"), total_registrations := 150,
             growth_pct := PctVal.na } := by
  have h := (C1_quarterly_same_year_lookback (clean_data tQ4Q1) "category" _ rfl
    1 ((2023, 1), "2W")) (by with_unfolding_all decide)
  have h2 := h.1 (by with_unfolding_all decide)
  rw [h2]
  with_unfolding_all decide

/-- C2 as amended: in all three outputs of `calculate_growth_metrics`, when
the looked-up previous total is zero, the growth value follows float
division rather than being marked missing: positive infinity when the
current total is positive, negative infinity when it is negative, and
missing only when the current total is also zero. -/
theorem C2_zero_previous_follows_float_division (t : Table) (gc : String)
    (rows : List NRow) (hrows : rows = metricRows t "date" "registrations" gc)
    (i j l : Nat) (mk : (Nat × Nat) × String) (yk : Nat × String)
    (qk : (Nat × Nat) × String) :
    (∀ pk, (monthlyKeys rows)[i]? = some mk →
      (((monthlyKeys rows).take i).filter (fun p => p.2 == mk.2)).getLast? = some pk →
      cellTotal monthlyKey rows pk = 0 →
      ((calculate_growth_metrics t "date" "registrations" gc).1)[i]? = some
        { period_key := mk, total_registrations := cellTotal monthlyKey rows mk,
          growth_pct :=
            if cellTotal monthlyKey rows mk > 0 then PctVal.inf
            else if cellTotal monthlyKey rows mk < 0 then PctVal.ninf
            else PctVal.na }) ∧
    (∀ pk, (yearlyKeys rows)[j]? = some yk →
      (((yearlyKeys rows).take j).filter (fun p => p.2 == yk.2)).getLast? = some pk →
      cellTotal yearlyKey rows pk = 0 →
      ((calculate_growth_metrics t "date" "registrations" gc).2.1)[j]? = some
        { period_key := yk, total_registrations := cellTotal yearlyKey rows yk,
          growth_pct :=
            if cellTotal yearlyKey rows yk > 0 then PctVal.inf
            else if cellTotal yearlyKey rows yk < 0 then PctVal.ninf
            else PctVal.na }) ∧
    (∀ pk, (quarterlyKeys rows)[l]? = some qk →
      (((quarterlyKeys rows).take l).filter
        (fun p => p.2 == qk.2 && p.1.1 == qk.1.1)).getLast? = some pk →
      cellTotal quarterlyKey rows pk = 0 →
      ((calculate_growth_metrics t "date" "registrations" gc).2.2)[l]? = some
        { period_key := qk, total_registrations := cellTotal quarterlyKey rows qk,
          growth_pct :=
            if cellTotal quarterlyKey rows qk > 0 then PctVal.inf
            else if cellTotal quarterlyKey rows qk < 0 then PctVal.ninf
            else PctVal.na }) := by
  subst hrows
  refine ⟨fun pk hk hprev hz => ?_, fun pk hk hprev hz => ?_, fun pk hk hprev hz => ?_⟩
  · rw [show (calculate_growth_metrics t "date" "registrations" gc).1 =
      monthlyTable (metricRows t "date" "registrations" gc) from rfl,
      monthlyTable_getElem? _ i mk hk, hprev]
    simp only [Option.map_some', hz]
    rw [pct100_pctChange_zero]
  · rw [show (calculate_growth_metrics t "date" "registrations" gc).2.1 =
      yearlyTable (metricRows t "date" "registrations" gc) from rfl,
      yearlyTable_getElem? _ j yk hk, hprev]
    simp only [Option.map_some', hz]
    rw [pct100_pctChange_zero]
  · rw [show (calculate_growth_metrics t "date" "registrations" gc).2.2 =
      quarterlyTable (metricRows t "date" "registrations" gc) from rfl,
      quarterlyTable_getElem? _ l qk hk, hprev]
    simp only [Option.map_some', hz]
    rw [pct100_pctChange_zero]

/-- Witness for the amended C2: in the 100, 0, 150 scenario the March cell
(previous total zero, current total 150) gets positive infinity. -/
theorem C2_zero_previous_follows_float_division_witness :
    ((calculate_growth_metrics (clean_data tZeroPrev) "date" "registrations" "category").1)[2]? =
      some { period_key := ((2023, 3), "2W"), total_registrations := 150,
             growth_pct := PctVal.inf } := by
  have h := (C2_zero_previous_follows_float_division (clean_data tZeroPrev) "category" _ rfl
    2 0 0 ((2023, 3), "2W") (2023, "2W") ((2023, 1), "2W")).1
    ((2023, 2), "2W") (by with_unfolding_all decide) (by with_unfolding_all decide)
    (by with_unfolding_all decide)
  rw [h]
  with_unfolding_all decide

/-- C5 as amended: every cell total is the sum of the present registration
values of the rows with that monthly, yearly or quarterly key (the
`total_registrations` field of the output row at each position), a row with
a missing registrations value or a missing group value contributes nothing
to any cell total — but for sums this exclusion coincides with
zero-filling: the excluded total always equals the zero-filled total. -/
theorem C5_missing_rows_excluded_totals (rows : List NRow) (i : Nat)
    (mk : (Nat × Nat) × String) (yk : Nat × String) (qk : (Nat × Nat) × String)
    (r : NRow) :
    cellTotal monthlyKey rows mk = cellTotalZeroFilled monthlyKey rows mk ∧
    cellTotal yearlyKey rows yk = cellTotalZeroFilled yearlyKey rows yk ∧
    cellTotal quarterlyKey rows qk = cellTotalZeroFilled quarterlyKey rows qk ∧
    (r.value = none ∨ r.group = none →
      cellTotal monthlyKey (r :: rows) mk = cellTotal monthlyKey rows mk ∧
      cellTotal yearlyKey (r :: rows) yk = cellTotal yearlyKey rows yk ∧
      cellTotal quarterlyKey (r :: rows) qk = cellTotal quarterlyKey rows qk) ∧
    ((monthlyKeys rows)[i]? = some mk →
      ((monthlyTable rows)[i]?).map (fun g => g.total_registrations) =
        some (cellTotal monthlyKey rows mk)) := by
  refine ⟨cellTotal_eq_zeroFilled .., cellTotal_eq_zeroFilled ..,
    cellTotal_eq_zeroFilled .., fun h => ?_, fun hk => ?_⟩
  · rcases h with hv | hg
    · exact ⟨cellTotal_cons_missing _ _ _ _ (Or.inl hv),
        cellTotal_cons_missing _ _ _ _ (Or.inl hv),
        cellTotal_cons_missing _ _ _ _ (Or.inl hv)⟩
    · obtain ⟨h1, h2, h3⟩ := keys_none_of_group_none r hg
      exact ⟨cellTotal_cons_missing _ _ _ _ (Or.inr h1),
        cellTotal_cons_missing _ _ _ _ (Or.inr h2),
        cellTotal_cons_missing _ _ _ _ (Or.inr h3)⟩
  · rw [monthlyTable_getElem? rows i mk hk]
    rfl

/-- Witness for the amended C5 at the concrete missing-value scenario. -/
theorem C5_missing_rows_excluded_totals_witness :
    cellTotal monthlyKey exMissingRows ((2023, 1), "2W") =
      cellTotalZeroFilled monthlyKey exMissingRows ((2023, 1), "2W") ∧
    cellTotal monthlyKey
        ({ date := some (2023, 1, 25), group := some "2W", value := none } :: exMissingRows)
        ((2023, 1), "2W") =
      cellTotal monthlyKey exMissingRows ((2023, 1), "2W") := by
  have h := C5_missing_rows_excluded_totals exMissingRows 0 ((2023, 1), "2W")
    (2023, "2W") ((2023, 1), "2W")
    { date := some (2023, 1, 25), group := some "2W", value := none }
  exact ⟨h.1, (h.2.2.2.1 (Or.inl rfl)).1⟩

/-- C6: `calculate_growth_metrics` and the cleaning-plus-growth pipeline
are deterministic pure functions of the input table: identical inputs give
identical output tables and identical persisted relations, with no
dependence on wall-clock time or randomness in the model. -/
theorem C6_deterministic_pure (t1 t2 : Table) (gc : String) (h : t1 = t2) :
    calculate_growth_metrics t1 "date" "registrations" gc =
      calculate_growth_metrics t2 "date" "registrations" gc ∧
    calculate_growth_metrics (clean_data t1) "date" "registrations" gc =
      calculate_growth_metrics (clean_data t2) "date" "registrations" gc ∧
    process_data (some t1) = process_data (some t2) := by
  subst h
  exact ⟨rfl, rfl, rfl⟩

/-- Witness for C6 at a concrete table. -/
theorem C6_deterministic_pure_witness :
    calculate_growth_metrics tAlias "date" "registrations" "category" =
      calculate_growth_metrics tAlias "date" "registrations" "category" ∧
    calculate_growth_metrics (clean_data tAlias) "date" "registrations" "category" =
      calculate_growth_metrics (clean_data tAlias) "date" "registrations" "category" ∧
    process_data (some tAlias) = process_data (some tAlias) :=
  C6_deterministic_pure tAlias tAlias "category" rfl

/-- C8: `clean_data` drops exactly the rows whose every field is missing
and retains all others (transformed cell-wise); in a retained row an
unparseable value in a date-named column or numeric-vocabulary column
becomes missing (not zero, not an empty string, with no exception — the
transformation is total), a parseable one is coerced, and cells of all
other columns are preserved unchanged. -/
theorem C8_clean_drops_empty_rows_coerces_fields (t : Table) (r : List Cell)
    (col s : String) (c : Cell) (d : Nat × Nat × Nat) (q : ℚ) :
    ((clean_data t).rows =
      (t.rows.filter (fun row => !(row.all (fun cc => cc == Cell.na)))).map
        (cleanRow (t.cols.map normalizeColName))) ∧
    (r ∈ t.rows → (r.all (fun cc => cc == Cell.na)) = false →
      cleanRow (t.cols.map normalizeColName) r ∈ (clean_data t).rows) ∧
    (isDateCol col = true → isNumCol col = false → (col == "category") = false →
      (col == "manufacturer") = false →
      (parseDate s = none → cleanCell col (Cell.str s) = Cell.na) ∧
      (parseDate s = some d → cleanCell col (Cell.str s) = Cell.date d)) ∧
    (isDateCol col = false → isNumCol col = true → (col == "category") = false →
      (col == "manufacturer") = false →
      (parseNum (stripNonNum s) = none → cleanCell col (Cell.str s) = Cell.na) ∧
      (parseNum (stripNonNum s) = some q → cleanCell col (Cell.str s) = Cell.num q)) ∧
    (isDateCol col = false → isNumCol col = false → (col == "category") = false →
      (col == "manufacturer") = false → cleanCell col c = c) := by
  refine ⟨rfl, fun hm hna => ?_, fun h1 h2 h3 h4 => ⟨fun hp => ?_, fun hp => ?_⟩,
    fun h1 h2 h3 h4 => ⟨fun hp => ?_, fun hp => ?_⟩, fun h1 h2 h3 h4 => ?_⟩
  · exact List.mem_map_of_mem _ (List.mem_filter.2 ⟨hm, by rw [hna]; rfl⟩)
  · simp [cleanCell, h1, h2, h3, h4, dateCoerce, hp]
  · simp [cleanCell, h1, h2, h3, h4, dateCoerce, hp]
  · simp [cleanCell, h1, h2, h3, h4, numericCoerce, hp]
  · simp [cleanCell, h1, h2, h3, h4, numericCoerce, hp]
  · simp [cleanCell, h1, h2, h3, h4]

/-- Witness for C8 at the dirty scenario table: the all-missing row is
dropped, the partially-bad row survives with its unparseable date and count
missing and its other fields intact, and the good row parses fully. -/
theorem C8_clean_drops_empty_rows_coerces_fields_witness :
    (clean_data tDirty).rows =
      [[Cell.na, Cell.str "2W", Cell.na, Cell.str "keep me"],
       [Cell.date (2023, 1, 15), Cell.str "2W", Cell.num 1234, Cell.str "ok"]] ∧
    cleanCell "date" (Cell.str "not-a-date") = Cell.na ∧
    cleanCell "date" (Cell.str "2023-01-15") = Cell.date (2023, 1, 15) ∧
    cleanCell "count" (Cell.str "abc") = Cell.na ∧
    cleanCell "count" (Cell.str "1,234") = Cell.num 1234 ∧
    cleanCell "note" (Cell.str "keep me") = Cell.str "keep me" := by
  have hrows := (C8_clean_drops_empty_rows_coerces_fields tDirty []
    "date" "not-a-date" Cell.na (0, 0, 0) 0).1
  have h1 := ((C8_clean_drops_empty_rows_coerces_fields tDirty []
    "date" "not-a-date" Cell.na (0, 0, 0) 0).2.2.1
    (by decide) (by decide) (by decide) (by decide)).1 (by decide)
  have h2 := ((C8_clean_drops_empty_rows_coerces_fields tDirty []
    "date" "2023-01-15" Cell.na (2023, 1, 15) 0).2.2.1
    (by decide) (by decide) (by decide) (by decide)).2 (by decide)
  have h3 := ((C8_clean_drops_empty_rows_coerces_fields tDirty []
    "count" "abc" Cell.na (0, 0, 0) 0).2.2.2.1
    (by decide) (by decide) (by decide) (by decide)).1 (by decide)
  have h4 := ((C8_clean_drops_empty_rows_coerces_fields tDirty []
    "count" "1,234" Cell.na (0, 0, 0) 1234).2.2.2.1
    (by decide) (by decide) (by decide) (by decide)).2 (by with_unfolding_all decide)
  have h5 := (C8_clean_drops_empty_rows_coerces_fields tDirty []
    "note" "x" (Cell.str "keep me") (0, 0, 0) 0).2.2.2.2
    (by decide) (by decide) (by decide) (by decide)
  refine ⟨?_, h1, h2, h3, h4, h5⟩
  rw [hrows]
  with_unfolding_all decide

/-- Skipping corrupt files does not change which tables are read. -/
theorem filterMap_readOk_filter (files : List SourceFile) :
    (files.filter (fun f => !(isCorrupt f))).filterMap readOk =
      files.filterMap readOk := by
  induction files with
  | nil => rfl
  | cons f fs ih =>
    cases f with
    | ok t =>
      rw [List.filter_cons_of_pos (by rfl), List.filterMap_cons_some (by rfl),
        List.filterMap_cons_some (by rfl), ih]
    | corrupt msg =>
      rw [List.filter_cons_of_neg (by simp [isCorrupt]), List.filterMap_cons_none (by rfl), ih]

/-- Some table is read exactly when some non-corrupt file is present. -/
theorem filterMap_readOk_isEmpty (files : List SourceFile) :
    (files.filterMap readOk).isEmpty =
      (files.filter (fun f => !(isCorrupt f))).isEmpty := by
  induction files with
  | nil => rfl
  | cons f fs ih =>
    cases f with
    | ok t =>
      rw [List.filter_cons_of_pos (by rfl), List.filterMap_cons_some (by rfl)]
      rfl
    | corrupt msg =>
      rw [List.filter_cons_of_neg (by simp [isCorrupt]), List.filterMap_cons_none (by rfl), ih]

/-- When every file is corrupt, nothing is read. -/
theorem filterMap_readOk_nil (files : List SourceFile)
    (h : files.all isCorrupt = true) : files.filterMap readOk = [] := by
  induction files with
  | nil => rfl
  | cons f fs ih =>
    rw [List.all_cons, Bool.and_eq_true] at h
    cases f with
    | ok t => exact absurd h.1 (by simp [isCorrupt])
    | corrupt msg => rw [List.filterMap_cons_none (by rfl)]; exact ih h.2

/-- C9: an unreadable or corrupt input file is skipped without aborting the
load — `load_data` returns the same combined table as on the input with the
corrupt files removed — and when no readable input exists at all the
pipeline reports no data, produces no relations, and returns that state to
the caller instead of raising. -/
theorem C9_corrupt_skipped_empty_reported (files : List SourceFile) :
    load_data files = load_data (files.filter (fun f => !(isCorrupt f))) ∧
    (files.all isCorrupt = true →
      process_data (load_data files) = (none, ProcResult.noData)) := by
  constructor
  · simp only [load_data, filterMap_readOk_filter]
    by_cases h1 : files.isEmpty = true
    · have h0 : files = [] := by
        cases files with
        | nil => rfl
        | cons a l => simp at h1
      subst h0; rfl
    · rw [if_neg h1]
      by_cases h2 : (files.filter (fun f => !(isCorrupt f))).isEmpty = true
      · rw [if_pos h2, if_pos (by rw [filterMap_readOk_isEmpty]; exact h2)]
      · rw [if_neg h2, if_neg (by rw [filterMap_readOk_isEmpty]; exact h2)]
  · intro h
    have hnil : files.filterMap readOk = [] := filterMap_readOk_nil files h
    have hl : load_data files = none := by
      simp only [load_data, hnil]
      by_cases h1 : files.isEmpty = true
      · rw [if_pos h1]
      · rw [if_neg h1]
        simp
    rw [hl]; rfl

/-- Witness for C9: one readable file alongside a corrupt one loads as if
the corrupt one were absent, and an all-corrupt directory yields the
no-data outcome with no relations written. -/
theorem C9_corrupt_skipped_empty_reported_witness :
    load_data [SourceFile.ok tAlias, SourceFile.corrupt "bad bytes"] =
      load_data [SourceFile.ok tAlias] ∧
    process_data (load_data [SourceFile.corrupt "bad bytes"]) =
      (none, ProcResult.noData) := by
  have h1 := (C9_corrupt_skipped_empty_reported
    [SourceFile.ok tAlias, SourceFile.corrupt "bad bytes"]).1
  have h2 := (C9_corrupt_skipped_empty_reported [SourceFile.corrupt "bad bytes"]).2
    (by decide)
  exact ⟨by rw [h1]; rfl, h2⟩
